import Mathlib

/-!
# Verification of the geosphere address-resolution engine

A shallow embedding of `src/main.py`: the address normalizer
(`clean_address`), the two-provider resolution pipeline
(`get_coordinates`) and the batch runner (`process_csv`), with the
external geocoding providers and the country directory modelled as
function parameters, and the Streamlit warning/error sinks modelled as
an explicit log.  Floating-point coordinates are carried opaquely (no
arithmetic is performed on them in the source), so they are embedded
as exact rationals.
-/

namespace Geo

/-! ## Python text primitives

`clean_address` uses `re.sub(r"\s+", " ", _)`, `re.sub(r"[,.-]", " ", _)`
and `str.strip()`.  Whitespace is the set matched by Python's `\s` on
`str` (which for the stripped sets used here coincides with what
`str.strip` removes). -/

/-- Characters matched by Python's regex class backslash-s on `str`
(ASCII whitespace, the C1 controls x1c-x1f, NEL, NBSP and the Unicode
space separators). -/
def isPySpace (c : Char) : Bool :=
  c == ' ' || c == '\t' || c == '\n' || c == '\r' || c == '\x0b' || c == '\x0c' ||
  c == '\x1c' || c == '\x1d' || c == '\x1e' || c == '\x1f' || c == '\x85' || c == '\xa0' ||
  c == '\u1680' || c == '\u2000' || c == '\u2001' || c == '\u2002' || c == '\u2003' ||
  c == '\u2004' || c == '\u2005' || c == '\u2006' || c == '\u2007' || c == '\u2008' ||
  c == '\u2009' || c == '\u200a' || c == '\u2028' || c == '\u2029' || c == '\u202f' ||
  c == '\u205f' || c == '\u3000'

/-- The three separator characters of `re.sub(r"[,.-]", " ", _)`. -/
def isSepChar (c : Char) : Bool := c == ',' || c == '.' || c == '-'

/-- One character of the separator substitution. -/
def sepToSpace (c : Char) : Char := if isSepChar c then ' ' else c

/-- `re.sub(r"\s+", " ", _)` on a character list: each maximal run of
whitespace becomes a single plain space.  The flag records whether the
previous character was part of a whitespace run. -/
def collapseAux : Bool → List Char → List Char
  | _, [] => []
  | prevWs, c :: rest =>
    if isPySpace c then
      if prevWs then collapseAux true rest else ' ' :: collapseAux true rest
    else c :: collapseAux false rest

/-- Remove a maximal run of trailing whitespace. -/
def stripTrail : List Char → List Char
  | [] => []
  | c :: rest =>
    match stripTrail rest with
    | [] => if isPySpace c then [] else [c]
    | r :: rs => c :: r :: rs

/-- Python `str.strip()`: drop leading and trailing whitespace. -/
def pyStripList (l : List Char) : List Char := stripTrail (l.dropWhile isPySpace)

/-- `clean_address` on a character list, in the source's order: collapse
whitespace runs, then replace separators by spaces, then strip. -/
def cleanList (l : List Char) : List Char :=
  pyStripList ((collapseAux false l).map sepToSpace)

/-- `clean_address` (src/main.py lines 21-26). -/
def clean_address (s : String) : String := String.mk (cleanList s.data)

/-- Python `str.lower()` (the inputs of interest are ASCII). -/
def pyLower (s : String) : String := String.mk (s.data.map Char.toLower)

/-- `needle` occurs at the head of the second list. -/
def leadsWith : List Char → List Char → Bool
  | [], _ => true
  | _ :: _, [] => false
  | a :: as, b :: bs => a == b && leadsWith as bs

/-- `needle` occurs as a contiguous sublist. -/
def hasSub (needle : List Char) : List Char → Bool
  | [] => leadsWith needle []
  | b :: bs => leadsWith needle (b :: bs) || hasSub needle bs

/-- Python `needle in hay` on strings. -/
def pyIn (needle hay : String) : Bool := hasSub needle.data hay.data

/-- Python `s.replace(", ", "\n")`: left-to-right, non-overlapping. -/
def newlineCommas : List Char → List Char
  | [] => []
  | ',' :: ' ' :: rest => '\n' :: newlineCommas rest
  | c :: rest => c :: newlineCommas rest

/-- `result.address.replace(", ", "\n")` (src/main.py line 78). -/
def pyReplaceCommaSpace (s : String) : String := String.mk (newlineCommas s.data)

/-! ## Structure of normalized text

`tidyAux b l` says every whitespace character of `l` is a plain space
and no two whitespace characters are adjacent (with `b` recording
whether a whitespace character immediately precedes `l`); `noSep l`
says `l` has no separator characters.  Together with being stripped,
these characterize the fixed points of `cleanList`. -/

/-- All whitespace is a plain space and whitespace is never adjacent to
whitespace; the flag says whether the previous character was whitespace. -/
def tidyAux : Bool → List Char → Bool
  | _, [] => true
  | prevWs, c :: rest =>
    if isPySpace c then (c == ' ') && !prevWs && tidyAux true rest
    else tidyAux false rest

/-- No separator character occurs. -/
def noSep : List Char → Bool
  | [] => true
  | c :: rest => !isSepChar c && noSep rest

/-! ## The resolution pipeline

`get_coordinates` (src/main.py lines 28-94).  The two geocoders and the
`pycountry` registry are environment parameters: a geocoder maps the
query string it is given to a match, an empty result, or a raised
exception; the registry maps a two-letter code to the country name
(`pycountry.countries.get(alpha_2=code)` returning `None` for an
unknown code, whose `.name` access then raises `AttributeError`).
`st.warning` / `st.error` calls are collected in a log together with
the query string of every `geocode` call actually issued. -/

/-- A provider response: latitude, longitude and the provider-formatted
address string.  Decimal degrees are embedded as exact rationals. -/
structure ProviderMatch where
  latitude : ℚ
  longitude : ℚ
  address : String
deriving DecidableEq, Repr

/-- The Python exceptions the pipeline can see. -/
inductive PyExc where
  | geocoderTimedOut
  | attributeNoneName
  | providerExc (msg : String)
deriving DecidableEq, Repr

/-- `str(e)` for the modelled exceptions (representative message texts). -/
def PyExc.msgStr : PyExc → String
  | .geocoderTimedOut => "Service timed out"
  | .attributeNoneName => "NoneType object has no attribute name"
  | .providerExc msg => msg

/-- Behaviour of one `geocode` call. -/
inductive GeoResponse where
  | found (m : ProviderMatch)
  | noResult
  | raises (e : PyExc)
deriving DecidableEq, Repr

/-- The dictionary returned by `get_coordinates` on success. -/
structure GeocodeResult where
  latitude : ℚ
  longitude : ℚ
  address : String
  match_level : String
  confidence : String
  original_address : String
deriving DecidableEq, Repr

/-- Whether a Python call returns normally or raises to its caller. -/
inductive PyOutcome (α : Type) where
  | ok (a : α)
  | raised (e : PyExc)
deriving DecidableEq, Repr

/-- `true` iff the call returned normally. -/
def PyOutcome.isOk {α : Type} : PyOutcome α → Bool
  | .ok _ => true
  | .raised _ => false

/-- The caller-visible channel and the issued provider calls. -/
structure ResolveLog where
  warnings : List String
  errors : List String
  googleCalls : List String
  nominatimCalls : List String
deriving DecidableEq, Repr

/-- Python truthiness of the optional string arguments (`if api_key:`,
`if country_code`): absent or empty is falsy. -/
def truthyStr : Option String → Bool
  | Option.none => false
  | Option.some s => s != ""

/-- `country_code and country_code != 'GLOBAL'` (lines 38 and 64). -/
def isScoped (cc : Option String) : Bool :=
  match cc with
  | Option.none => false
  | Option.some c => c != "" && c != "GLOBAL"

/-- The warning text of line 58. -/
def googleWarn (e : PyExc) : String :=
  "Google Maps API error: " ++ e.msgStr ++ ", falling back to Nominatim"

/-- The error text of line 93. -/
def pipelineError (e : PyExc) : String := "Error processing address: " ++ e.msgStr

/-- The inner `try` of the Google branch (lines 36-58): country-bias the
query unless the country name already occurs case-insensitively, then
call `GoogleV3.geocode`; any exception is caught and turned into a
warning.  Returns the result (if any), the `location` variable as the
branch leaves it (the bias mutation persists after a caught
exception), the warnings emitted and the queries issued. -/
def googleBranch (pyc : String → Option String) (google : String → GeoResponse)
    (location : String) (cc : Option String) (orig : String) :
    Option GeocodeResult × String × List String × List String :=
  let biased : Except PyExc String :=
    if isScoped cc then
      match pyc (cc.getD "") with
      | Option.none => Except.error PyExc.attributeNoneName
      | Option.some country_name =>
        if pyIn (pyLower country_name) (pyLower location) then Except.ok location
        else Except.ok (location ++ ", " ++ country_name)
    else Except.ok location
  match biased with
  | Except.error e => (Option.none, location, [googleWarn e], [])
  | Except.ok loc2 =>
    match google loc2 with
    | GeoResponse.found r =>
      (Option.some { latitude := r.latitude, longitude := r.longitude,
                     address := r.address, match_level := "GOOGLE_MATCH",
                     confidence := "High", original_address := orig },
       loc2, [], [loc2])
    | GeoResponse.noResult => (Option.none, loc2, [], [loc2])
    | GeoResponse.raises e => (Option.none, loc2, [googleWarn e], [loc2])

/-- The Nominatim phase (lines 60-88), taking over the Google branch's
result tuple.  The country lookup here is NOT inside an inner `try`:
an unknown code raises to the outer handler.  (The `country_codes`
restriction and `language` parameters of the call are provider-side
configuration and carry no information the claims depend on.) -/
def nominatimPhase (pyc : String → Option String) (nominatim : String → GeoResponse)
    (orig : String) (cc : Option String)
    (prim : Option GeocodeResult × String × List String × List String) :
    Except PyExc (Option GeocodeResult) × ResolveLog :=
  match prim with
  | (Option.some r, _, warns, gCalls) =>
    (Except.ok (Option.some r), ⟨warns, [], gCalls, []⟩)
  | (Option.none, location2, warns, gCalls) =>
    let searchE : Except PyExc String :=
      if isScoped cc then
        match pyc (cc.getD "") with
        | Option.none => Except.error PyExc.attributeNoneName
        | Option.some country_name => Except.ok (location2 ++ ", " ++ country_name)
      else Except.ok location2
    match searchE with
    | Except.error e => (Except.error e, ⟨warns, [], gCalls, []⟩)
    | Except.ok search_location =>
      match nominatim search_location with
      | GeoResponse.found r =>
        (Except.ok (Option.some
          { latitude := r.latitude, longitude := r.longitude,
            address := pyReplaceCommaSpace r.address,
            match_level := "NOMINATIM_FULL", confidence := "Medium",
            original_address := orig }),
         ⟨warns, [], gCalls, [search_location]⟩)
      | GeoResponse.noResult =>
        (Except.ok Option.none, ⟨warns, [], gCalls, [search_location]⟩)
      | GeoResponse.raises e =>
        (Except.error e, ⟨warns, [], gCalls, [search_location]⟩)

/-- The body of the outer `try` (lines 29-88). -/
def resolveBody (pyc : String → Option String) (google nominatim : String → GeoResponse)
    (location0 : String) (cc key : Option String) :
    Except PyExc (Option GeocodeResult) × ResolveLog :=
  let location := clean_address location0
  let prim :=
    if truthyStr key then googleBranch pyc google location cc location0
    else (Option.none, location, [], [])
  nominatimPhase pyc nominatim location0 cc prim

/-- `get_coordinates` (lines 28-94): the outer handlers — a
`GeocoderTimedOut` returns `None` silently, any other exception is
reported with `st.error` and `None` is returned. -/
def get_coordinates (pyc : String → Option String) (google nominatim : String → GeoResponse)
    (location : String) (cc key : Option String) :
    PyOutcome (Option GeocodeResult) × ResolveLog :=
  match resolveBody pyc google nominatim location cc key with
  | (Except.ok r, log) => (PyOutcome.ok r, log)
  | (Except.error PyExc.geocoderTimedOut, log) => (PyOutcome.ok Option.none, log)
  | (Except.error e, log) =>
    (PyOutcome.ok Option.none, { log with errors := log.errors ++ [pipelineError e] })

/-- A scope as the claims speak of it: `Global`, or a non-Global code
the country registry knows (the data-model invariant of the spec:
"every non-Global scope must resolve to exactly one known country
name"). -/
def validScope (pyc : String → Option String) (cc : Option String) : Prop :=
  cc = Option.some "GLOBAL" ∨
    (isScoped cc = true ∧ (pyc (cc.getD "")).isSome = true)

/-! ## A concrete sample environment

Used to evaluate the theorems on closed inputs. -/

/-- A sample of the `pycountry` alpha-2 registry ("ZZ" is not an ISO
code and is absent, as are all other unlisted strings). -/
def demoRegistry : String → Option String
  | "US" => Option.some "United States"
  | "FR" => Option.some "France"
  | _ => Option.none

/-- A geocoder that matches every query with the same result. -/
def geoAlways (m : ProviderMatch) : String → GeoResponse := fun _ => GeoResponse.found m

/-- A geocoder that finds nothing. -/
def geoEmpty : String → GeoResponse := fun _ => GeoResponse.noResult

/-- A geocoder whose call raises. -/
def geoRaise (e : PyExc) : String → GeoResponse := fun _ => GeoResponse.raises e

/-- The Secondary response of the spec's worked example. -/
def parisMatch : ProviderMatch :=
  { latitude := 488566/10000, longitude := 23522/10000, address := "Paris, France" }

/-! ## The batch runner

`process_csv` (src/main.py lines 96-132).  A row is its address cell
(`None` models a missing/NaN cell); the five result columns start
unset.  The trace records the status texts written, the addresses
passed to `get_coordinates`, the fractions sent to the progress bar,
and the number of `time.sleep(1)` calls. -/

/-- One row after processing: the cell and the five result columns. -/
structure BatchRow where
  cell : Option String
  latitude : Option ℚ
  longitude : Option ℚ
  full_address : Option String
  match_level : Option String
  confidence : Option String
deriving DecidableEq, Repr

/-- A row whose five result columns are unset. -/
def blankRow (cell : Option String) : BatchRow :=
  { cell := cell, latitude := Option.none, longitude := Option.none,
    full_address := Option.none, match_level := Option.none,
    confidence := Option.none }

/-- `pd.isna(row[address_column]) or str(row[address_column]).strip() == ''`
(line 114). -/
def isBlankCell : Option String → Bool
  | Option.none => true
  | Option.some s => (pyStripList s.data).isEmpty

/-- Observable side effects of one `process_csv` run.  A progress-bar
update `progress_bar.progress((index + 1) / total_rows)` is recorded
as the pair `(index + 1, total_rows)` that determines the fraction
sent. -/
structure CsvTrace where
  statusTexts : List String
  resolveCalls : List String
  progressUpdates : List (Nat × Nat)
  sleepCount : Nat
deriving DecidableEq, Repr

/-- The loop of lines 110-129 over the remaining cells, `i` being the
current positional index and `total` the fixed row count.  A blank cell
hits `continue` before the progress-bar update and the sleep. -/
def process_csv_aux (pyc : String → Option String) (google nominatim : String → GeoResponse)
    (cc key : Option String) (total : Nat) : Nat → List (Option String) → List BatchRow × CsvTrace
  | _, [] => ([], ⟨[], [], [], 0⟩)
  | i, cell :: rest =>
    let status := "Processing row " ++ toString (i + 1) ++ "/" ++ toString total
    if isBlankCell cell then
      let next := process_csv_aux pyc google nominatim cc key total (i + 1) rest
      (blankRow cell :: next.1,
       { next.2 with statusTexts := status :: next.2.statusTexts })
    else
      let addr := cell.getD ""
      let row : BatchRow :=
        match (get_coordinates pyc google nominatim addr cc key).1 with
        | PyOutcome.ok (Option.some r) =>
          { cell := cell, latitude := Option.some r.latitude,
            longitude := Option.some r.longitude,
            full_address := Option.some r.address,
            match_level := Option.some r.match_level,
            confidence := Option.some r.confidence }
        | _ => blankRow cell
      let next := process_csv_aux pyc google nominatim cc key total (i + 1) rest
      (row :: next.1,
       { statusTexts := status :: next.2.statusTexts,
         resolveCalls := addr :: next.2.resolveCalls,
         progressUpdates := (i + 1, total) :: next.2.progressUpdates,
         sleepCount := next.2.sleepCount + 1 })

/-- `process_csv` (lines 96-132). -/
def process_csv (pyc : String → Option String) (google nominatim : String → GeoResponse)
    (rows : List (Option String)) (cc key : Option String) : List BatchRow × CsvTrace :=
  process_csv_aux pyc google nominatim cc key rows.length 0 rows

/-! ## Lemmas about the normalizer -/

theorem sepToSpace_not_sep (c : Char) : isSepChar (sepToSpace c) = false := by
  by_cases h : isSepChar c = true
  · unfold sepToSpace; rw [if_pos h]; rfl
  · have h2 : isSepChar c = false := by simpa using h
    unfold sepToSpace; rw [if_neg h]; exact h2

theorem tidy_collapse : ∀ (l : List Char) (b : Bool), tidyAux b (collapseAux b l) = true := by
  intro l
  induction l with
  | nil => intro b; rfl
  | cons c rest ih =>
    intro b
    by_cases hc : isPySpace c = true
    · cases b with
      | true => simpa [collapseAux, hc] using ih true
      | false => simpa [collapseAux, tidyAux, hc] using ih true
    · simp only [Bool.not_eq_true] at hc
      simpa [collapseAux, tidyAux, hc] using ih false

theorem collapse_of_tidy :
    ∀ (l : List Char) (b : Bool), tidyAux b l = true → collapseAux b l = l := by
  intro l
  induction l with
  | nil => intro b _; rfl
  | cons c rest ih =>
    intro b h
    by_cases hc : isPySpace c = true
    · simp only [tidyAux, hc, if_true, Bool.and_eq_true, Bool.not_eq_true',
        beq_iff_eq] at h
      obtain ⟨⟨hsp, hb⟩, ht⟩ := h
      subst hb; subst hsp
      simp [collapseAux, hc, ih true ht]
    · simp only [Bool.not_eq_true] at hc
      simp only [tidyAux, hc, Bool.false_eq_true, if_false] at h
      simp [collapseAux, hc, ih false h]

theorem noSep_map_sep (l : List Char) : noSep (l.map sepToSpace) = true := by
  induction l with
  | nil => rfl
  | cons c rest ih =>
    simp only [List.map_cons, noSep, Bool.and_eq_true, Bool.not_eq_true']
    exact ⟨sepToSpace_not_sep c, ih⟩

theorem map_sep_of_noSep (l : List Char) (h : noSep l = true) : l.map sepToSpace = l := by
  induction l with
  | nil => rfl
  | cons c rest ih =>
    simp only [noSep, Bool.and_eq_true, Bool.not_eq_true'] at h
    simp only [List.map_cons, ih h.2, List.cons.injEq, and_true]
    unfold sepToSpace
    rw [if_neg (by simp [h.1])]

theorem noSep_collapse (l : List Char) (hl : noSep l = true) :
    ∀ b, noSep (collapseAux b l) = true := by
  induction l with
  | nil => intro b; rfl
  | cons c rest ih =>
    intro b
    simp only [noSep, Bool.and_eq_true, Bool.not_eq_true'] at hl
    have ihr := ih hl.2
    by_cases hc : isPySpace c = true
    · cases b with
      | true => simpa [collapseAux, hc] using ihr true
      | false =>
        simp only [collapseAux, hc, if_true, Bool.false_eq_true, if_false]
        simp only [noSep, Bool.and_eq_true, Bool.not_eq_true']
        exact ⟨rfl, ihr true⟩
    · simp only [Bool.not_eq_true] at hc
      simp only [collapseAux, hc, Bool.false_eq_true, if_false]
      simp only [noSep, Bool.and_eq_true, Bool.not_eq_true']
      exact ⟨hl.1, ihr false⟩

theorem noSep_dropWhile (l : List Char) (h : noSep l = true) :
    noSep (l.dropWhile isPySpace) = true := by
  induction l with
  | nil => rfl
  | cons c rest ih =>
    simp only [noSep, Bool.and_eq_true, Bool.not_eq_true'] at h
    by_cases hc : isPySpace c = true
    · simpa [List.dropWhile_cons, hc] using ih h.2
    · have hc2 : isPySpace c = false := by simpa using hc
      simp only [List.dropWhile_cons, hc2, Bool.false_eq_true, if_false]
      simp only [noSep, Bool.and_eq_true, Bool.not_eq_true']
      exact ⟨h.1, h.2⟩

theorem noSep_stripTrail (l : List Char) (h : noSep l = true) :
    noSep (stripTrail l) = true := by
  induction l with
  | nil => rfl
  | cons c rest ih =>
    simp only [noSep, Bool.and_eq_true, Bool.not_eq_true'] at h
    have ihr := ih h.2
    cases hst : stripTrail rest with
    | nil =>
      by_cases hc : isPySpace c = true
      · simp [stripTrail, hst, hc, noSep]
      · have hc2 : isPySpace c = false := by simpa using hc
        simp [stripTrail, hst, hc2, noSep, h.1]
    | cons r rs =>
      rw [hst] at ihr
      simp only [stripTrail, hst]
      simp only [noSep, Bool.and_eq_true, Bool.not_eq_true'] at ihr ⊢
      exact ⟨h.1, ihr⟩

theorem noSep_pyStrip (l : List Char) (h : noSep l = true) :
    noSep (pyStripList l) = true :=
  noSep_stripTrail _ (noSep_dropWhile _ h)

theorem tidy_dropWhile :
    ∀ (l : List Char) (b : Bool), tidyAux b l = true →
      tidyAux false (l.dropWhile isPySpace) = true := by
  intro l
  induction l with
  | nil => intro b _; rfl
  | cons c rest ih =>
    intro b h
    by_cases hc : isPySpace c = true
    · simp only [tidyAux, hc, if_true, Bool.and_eq_true] at h
      simpa [List.dropWhile_cons, hc] using ih true h.2
    · have hc2 : isPySpace c = false := by simpa using hc
      simp only [tidyAux, hc2, Bool.false_eq_true, if_false] at h
      simpa [List.dropWhile_cons, hc2, tidyAux] using h

theorem tidy_stripTrail :
    ∀ (l : List Char) (b : Bool), tidyAux b l = true → tidyAux b (stripTrail l) = true := by
  intro l
  induction l with
  | nil => intro b h; exact h
  | cons c rest ih =>
    intro b h
    cases hst : stripTrail rest with
    | nil =>
      by_cases hc : isPySpace c = true
      · simp [stripTrail, hst, hc, tidyAux]
      · have hc2 : isPySpace c = false := by simpa using hc
        simp [stripTrail, hst, hc2, tidyAux]
    | cons r rs =>
      simp only [stripTrail, hst]
      by_cases hc : isPySpace c = true
      · simp only [tidyAux, hc, if_true, Bool.and_eq_true] at h ⊢
        refine ⟨h.1, ?_⟩
        have h3 := ih true h.2
        rwa [hst] at h3
      · have hc2 : isPySpace c = false := by simpa using hc
        simp only [tidyAux, hc2, Bool.false_eq_true, if_false] at h ⊢
        have h3 := ih false h
        rwa [hst] at h3

theorem tidy_pyStrip (l : List Char) (b : Bool) (h : tidyAux b l = true) :
    tidyAux false (pyStripList l) = true :=
  tidy_stripTrail _ false (tidy_dropWhile l b h)

theorem stripTrail_stripTrail (l : List Char) : stripTrail (stripTrail l) = stripTrail l := by
  induction l with
  | nil => rfl
  | cons c rest ih =>
    cases hst : stripTrail rest with
    | nil =>
      by_cases hc : isPySpace c = true
      · simp [stripTrail, hst, hc]
      · have hc2 : isPySpace c = false := by simpa using hc
        simp [stripTrail, hst, hc2]
    | cons r rs =>
      rw [hst] at ih
      simp only [stripTrail, hst]
      simp only [stripTrail] at ih
      simp only [stripTrail, ih]

theorem dropWhile_head_false :
    ∀ (l : List Char) (c : Char) (rest : List Char),
      l.dropWhile isPySpace = c :: rest → isPySpace c = false := by
  intro l
  induction l with
  | nil => intro c rest h; exact absurd h (by simp)
  | cons a as ih =>
    intro c rest h
    by_cases ha : isPySpace a = true
    · simp only [List.dropWhile_cons, ha, if_true] at h
      exact ih c rest h
    · have ha2 : isPySpace a = false := by simpa using ha
      simp only [List.dropWhile_cons, ha2, Bool.false_eq_true, if_false,
        List.cons.injEq] at h
      rw [← h.1]; exact ha2

theorem stripTrail_head (l : List Char) :
    stripTrail l = [] ∨ ∃ rest2, stripTrail l = l.headD ' ' :: rest2 := by
  cases l with
  | nil => exact Or.inl rfl
  | cons c rest =>
    cases hst : stripTrail rest with
    | nil =>
      by_cases hc : isPySpace c = true
      · exact Or.inl (by simp [stripTrail, hst, hc])
      · have hc2 : isPySpace c = false := by simpa using hc
        exact Or.inr ⟨[], by simp [stripTrail, hst, hc2]⟩
    | cons r rs =>
      exact Or.inr ⟨r :: rs, by simp [stripTrail, hst]⟩

theorem dropWhile_pyStrip (l : List Char) :
    (pyStripList l).dropWhile isPySpace = pyStripList l := by
  unfold pyStripList
  rcases hd : l.dropWhile isPySpace with _ | ⟨c, rest⟩
  · simp [stripTrail]
  · have hc : isPySpace c = false := dropWhile_head_false l c rest hd
    rcases stripTrail_head (c :: rest) with h | ⟨r2, h⟩
    · simp [h]
    · simp only [List.headD] at h
      rw [h]
      simp [List.dropWhile_cons, hc]

theorem pyStrip_pyStrip (l : List Char) : pyStripList (pyStripList l) = pyStripList l := by
  have h : pyStripList (pyStripList l) = stripTrail ((pyStripList l).dropWhile isPySpace) := rfl
  rw [h, dropWhile_pyStrip]
  show stripTrail (stripTrail (l.dropWhile isPySpace)) = pyStripList l
  rw [stripTrail_stripTrail]
  rfl

/-- A list that is tidy, separator-free and stripped is a fixed point of
`cleanList`. -/
theorem cleanList_fixed (l : List Char) (h1 : noSep l = true) (h2 : tidyAux false l = true)
    (h3 : pyStripList l = l) : cleanList l = l := by
  unfold cleanList
  rw [collapse_of_tidy l false h2, map_sep_of_noSep l h1, h3]

theorem noSep_cleanList (l : List Char) : noSep (cleanList l) = true :=
  noSep_pyStrip _ (noSep_map_sep _)

theorem cleanList_cleanList_eq (l : List Char) (hl : noSep l = true) :
    cleanList l = pyStripList (collapseAux false l) := by
  unfold cleanList
  rw [map_sep_of_noSep _ (noSep_collapse l hl false)]

theorem cleanList_triple (l : List Char) :
    cleanList (cleanList (cleanList l)) = cleanList (cleanList l) := by
  have hy : noSep (cleanList l) = true := noSep_cleanList l
  have hm : cleanList (cleanList l) = pyStripList (collapseAux false (cleanList l)) :=
    cleanList_cleanList_eq _ hy
  apply cleanList_fixed
  · exact noSep_cleanList _
  · rw [hm]; exact tidy_pyStrip _ false (tidy_collapse (cleanList l) false)
  · rw [hm]; exact pyStrip_pyStrip _

/-! ## Shared pipeline lemmas -/

/-- The outer handlers make `get_coordinates` total: no exception
escapes, whatever the environment does. -/
theorem get_coordinates_isOk (pyc : String → Option String)
    (g n : String → GeoResponse) (loc : String) (cc key : Option String) :
    (get_coordinates pyc g n loc cc key).1.isOk = true := by
  unfold get_coordinates
  rcases hb : resolveBody pyc g n loc cc key with ⟨res, log⟩
  cases res with
  | ok r => simp [PyOutcome.isOk]
  | error e => cases e <;> simp [PyOutcome.isOk]

/-- The outer handlers only ever append to `errors`; warnings and the
recorded provider calls are those of the body. -/
theorem get_coordinates_log (pyc : String → Option String)
    (g n : String → GeoResponse) (loc : String) (cc key : Option String) :
    ((get_coordinates pyc g n loc cc key).2.warnings =
      (resolveBody pyc g n loc cc key).2.warnings)
    ∧ ((get_coordinates pyc g n loc cc key).2.googleCalls =
      (resolveBody pyc g n loc cc key).2.googleCalls)
    ∧ ((get_coordinates pyc g n loc cc key).2.nominatimCalls =
      (resolveBody pyc g n loc cc key).2.nominatimCalls) := by
  unfold get_coordinates
  rcases hb : resolveBody pyc g n loc cc key with ⟨res, log⟩
  cases res with
  | ok r => simp
  | error e => cases e <;> simp

/-- When the Google branch produced no result, the Nominatim phase
keeps its warnings and google-call record unchanged and adds no error
of its own. -/
theorem nominatimPhase_keeps (pyc : String → Option String) (n : String → GeoResponse)
    (orig : String) (cc : Option String) (loc2 : String) (warns gCalls : List String) :
    ((nominatimPhase pyc n orig cc (Option.none, loc2, warns, gCalls)).2.googleCalls = gCalls)
    ∧ ((nominatimPhase pyc n orig cc (Option.none, loc2, warns, gCalls)).2.warnings = warns) := by
  by_cases hsc : isScoped cc = true
  · cases hp : pyc (cc.getD "") with
    | none => simp [nominatimPhase, hsc, hp]
    | some nm => cases hn2 : n (loc2 ++ ", " ++ nm) <;> simp [nominatimPhase, hsc, hp, hn2]
  · have hsc2 : isScoped cc = false := by simpa using hsc
    cases hn2 : n loc2 <;> simp [nominatimPhase, hsc2, hn2]

/-- Under a known non-Global scope the Nominatim phase always appends
the country name to whatever query string it receives, and issues
exactly that one call. -/
theorem nominatimPhase_appends (pyc : String → Option String) (n : String → GeoResponse)
    (orig : String) (c nm loc2 : String) (warns gCalls : List String)
    (hsc : isScoped (Option.some c) = true) (hnm : pyc c = Option.some nm) :
    (nominatimPhase pyc n orig (Option.some c)
        (Option.none, loc2, warns, gCalls)).2.nominatimCalls = [loc2 ++ ", " ++ nm] := by
  cases hn2 : n (loc2 ++ ", " ++ nm) <;> simp [nominatimPhase, hsc, hnm, hn2]

/-- A successful result of `get_coordinates` is exactly a successful
result of the body: the outer handlers only turn exceptions into
`None`. -/
theorem resolveBody_ok_of_get (pyc : String → Option String)
    (g n : String → GeoResponse) (loc : String) (cc key : Option String)
    (r : GeocodeResult)
    (h : (get_coordinates pyc g n loc cc key).1 = PyOutcome.ok (Option.some r)) :
    (resolveBody pyc g n loc cc key).1 = Except.ok (Option.some r) := by
  unfold get_coordinates at h
  rcases hb : resolveBody pyc g n loc cc key with ⟨res, log⟩
  rw [hb] at h
  cases res with
  | ok x =>
    simp only [PyOutcome.ok.injEq] at h
    rw [h]
  | error e => cases e <;> simp at h

/-! ## Claims C4 and C5: the normalizer -/

/-- C4 (counterexample): `normalize` is NOT idempotent.  Because
whitespace is collapsed before commas/periods/hyphens are turned into
spaces, `clean_address "a , b" = "a   b"`, and a second application
collapses the new run: `clean_address "a   b" = "a b"`. -/
theorem clean_address_not_idempotent :
    clean_address "a , b" = "a   b"
    ∧ clean_address (clean_address "a , b") = "a b"
    ∧ clean_address (clean_address "a , b") ≠ clean_address "a , b" := by
  refine ⟨rfl, rfl, ?_⟩
  decide

/-- C4 (amended): one application of `normalize` need not be a fixed
point, but two applications are: for every string `x`,
`normalize (normalize (normalize x)) = normalize (normalize x)`. -/
theorem clean_address_double_application_fixed (s : String) :
    clean_address (clean_address (clean_address s)) = clean_address (clean_address s) := by
  show String.mk (cleanList (cleanList (cleanList s.data)))
      = String.mk (cleanList (cleanList s.data))
  exact congrArg String.mk (cleanList_triple s.data)

/-- C5 (counterexample): the spec example fails on the code:
`clean_address " a,  b.c-d "` is `"a  b c d"` (two spaces survive
between `a` and `b`), not `"a b c d"`, so the output can contain two
adjacent spaces. -/
theorem clean_address_example_counter :
    clean_address " a,  b.c-d " = "a  b c d"
    ∧ clean_address " a,  b.c-d " ≠ "a b c d" := by
  refine ⟨rfl, ?_⟩
  decide

/-- C5 (amended): `normalize` collapses whitespace runs, THEN replaces
comma/period/hyphen by spaces, then trims, so spaces created by the
separator replacement may be adjacent; on the spec example it returns
`"a  b c d"`.  The separator removal and the trim do hold for every
input, and for separator-free inputs the output has no two adjacent
whitespace characters and all its whitespace is plain spaces. -/
theorem clean_address_amended :
    clean_address " a,  b.c-d " = "a  b c d"
    ∧ (∀ s : String, noSep s.data = true → tidyAux false (clean_address s).data = true)
    ∧ (∀ s : String, pyStripList (clean_address s).data = (clean_address s).data)
    ∧ (∀ s : String, noSep (clean_address s).data = true) := by
  refine ⟨rfl, ?_, ?_, ?_⟩
  · intro s hs
    show tidyAux false (cleanList s.data) = true
    rw [cleanList_cleanList_eq s.data hs]
    exact tidy_pyStrip _ false (tidy_collapse _ false)
  · intro s
    show pyStripList (cleanList s.data) = cleanList s.data
    unfold cleanList
    exact pyStrip_pyStrip _
  · intro s
    exact noSep_cleanList s.data

/-- C5 (witness): the amended theorem evaluated at the separator-free
input `" x  y"`. -/
theorem clean_address_amended_witness :
    noSep (String.data " x  y") = true
    ∧ tidyAux false (clean_address " x  y").data = true :=
  ⟨by decide, clean_address_amended.2.1 " x  y" (by decide)⟩

/-! ## Claim C1: Primary error falls back to Secondary -/

/-- C1: with credentials present and a Global or registry-known scope,
if every Primary `geocode` call raises, `resolve` emits the fallback
warning and invokes the Secondary adapter; a Secondary match then
yields the `NOMINATIM_FULL` / `Medium` result whose `matchedAddress`
is the provider address with its comma-space separators rendered as
newlines (the reading the claim's own example `"Paris, France" ↦
"Paris\nFrance"` fixes), and `originalAddress` is the raw input. -/
theorem resolve_primary_error_fallback
    (pyc : String → Option String) (google nominatim : String → GeoResponse)
    (loc : String) (cc key : Option String) (e : PyExc) (m : ProviderMatch)
    (hkey : truthyStr key = true) (hscope : validScope pyc cc)
    (hg : ∀ q, google q = GeoResponse.raises e)
    (hn : ∀ q, nominatim q = GeoResponse.found m) :
    (get_coordinates pyc google nominatim loc cc key).1 =
      PyOutcome.ok (Option.some
        { latitude := m.latitude, longitude := m.longitude,
          address := pyReplaceCommaSpace m.address,
          match_level := "NOMINATIM_FULL", confidence := "Medium",
          original_address := loc })
    ∧ (get_coordinates pyc google nominatim loc cc key).2.warnings = [googleWarn e]
    ∧ (get_coordinates pyc google nominatim loc cc key).2.nominatimCalls ≠ [] := by
  rcases hscope with hG | ⟨hsc, hsome⟩
  · subst hG
    have hns : isScoped (Option.some "GLOBAL") = false := by decide
    simp [get_coordinates, resolveBody, googleBranch, nominatimPhase, hkey, hg, hn, hns]
  · rcases cc with _ | c
    · simp [isScoped] at hsc
    · obtain ⟨nm, hnm⟩ := Option.isSome_iff_exists.mp hsome
      have hnm2 : pyc c = Option.some nm := hnm
      by_cases hin : pyIn (pyLower nm) (pyLower (clean_address loc)) = true
      · simp [get_coordinates, resolveBody, googleBranch, nominatimPhase,
          hkey, hsc, hnm2, hin, hg, hn]
      · simp [get_coordinates, resolveBody, googleBranch, nominatimPhase,
          hkey, hsc, hnm2, hin, hg, hn]

/-- C1 (witness): the spec's worked example — Primary raising, the
Secondary returning `(48.8566, 2.3522, "Paris, France")` for "Paris"
with scope Global and a key present. -/
theorem resolve_primary_error_fallback_witness :
    pyReplaceCommaSpace parisMatch.address = "Paris\nFrance"
    ∧ (get_coordinates demoRegistry (geoRaise (PyExc.providerExc "quota"))
        (geoAlways parisMatch) "Paris" (Option.some "GLOBAL") (Option.some "k")).1 =
      PyOutcome.ok (Option.some
        { latitude := parisMatch.latitude, longitude := parisMatch.longitude,
          address := pyReplaceCommaSpace parisMatch.address,
          match_level := "NOMINATIM_FULL", confidence := "Medium",
          original_address := "Paris" })
    ∧ (get_coordinates demoRegistry (geoRaise (PyExc.providerExc "quota"))
        (geoAlways parisMatch) "Paris" (Option.some "GLOBAL") (Option.some "k")).2.warnings =
        [googleWarn (PyExc.providerExc "quota")] := by
  have h := resolve_primary_error_fallback demoRegistry
    (geoRaise (PyExc.providerExc "quota")) (geoAlways parisMatch) "Paris"
    (Option.some "GLOBAL") (Option.some "k") (PyExc.providerExc "quota") parisMatch
    (by decide) (Or.inl rfl) (fun q => rfl) (fun q => rfl)
  exact ⟨rfl, h.1, h.2.1⟩

/-! ## Claim C2: no credentials, Primary never invoked -/

/-- C2: with absent (or empty, hence falsy) credentials the Primary
adapter is never queried, whatever the scope and provider behaviour;
and under a Global or registry-known scope a Secondary match yields
the `NOMINATIM_FULL` / `Medium` result. -/
theorem resolve_no_credentials
    (pyc : String → Option String) (google nominatim : String → GeoResponse)
    (loc : String) (cc key : Option String) (m : ProviderMatch)
    (hkey : truthyStr key = false) :
    (get_coordinates pyc google nominatim loc cc key).2.googleCalls = []
    ∧ (validScope pyc cc → (∀ q, nominatim q = GeoResponse.found m) →
        (get_coordinates pyc google nominatim loc cc key).1 =
          PyOutcome.ok (Option.some
            { latitude := m.latitude, longitude := m.longitude,
              address := pyReplaceCommaSpace m.address,
              match_level := "NOMINATIM_FULL", confidence := "Medium",
              original_address := loc })) := by
  constructor
  · rw [(get_coordinates_log pyc google nominatim loc cc key).2.1]
    by_cases hsc : isScoped cc = true
    · cases hp : pyc (cc.getD "") with
      | none => simp [resolveBody, nominatimPhase, hkey, hsc, hp]
      | some nm =>
        cases hn2 : nominatim (clean_address loc ++ ", " ++ nm) <;>
          simp [resolveBody, nominatimPhase, hkey, hsc, hp, hn2]
    · have hsc2 : isScoped cc = false := by simpa using hsc
      cases hn2 : nominatim (clean_address loc) <;>
        simp [resolveBody, nominatimPhase, hkey, hsc2, hn2]
  · intro hscope hn
    rcases hscope with hG | ⟨hsc, hsome⟩
    · subst hG
      have hns : isScoped (Option.some "GLOBAL") = false := by decide
      simp [get_coordinates, resolveBody, nominatimPhase, hkey, hn, hns]
    · rcases cc with _ | c
      · simp [isScoped] at hsc
      · obtain ⟨nm, hnm⟩ := Option.isSome_iff_exists.mp hsome
        have hnm2 : pyc c = Option.some nm := hnm
        simp [get_coordinates, resolveBody, nominatimPhase, hkey, hn, hsc, hnm2]

/-- C2 (witness): no key, Global scope, Secondary matching Paris. -/
theorem resolve_no_credentials_witness :
    (get_coordinates demoRegistry geoEmpty (geoAlways parisMatch) "Paris"
        (Option.some "GLOBAL") Option.none).2.googleCalls = []
    ∧ (get_coordinates demoRegistry geoEmpty (geoAlways parisMatch) "Paris"
        (Option.some "GLOBAL") Option.none).1 =
      PyOutcome.ok (Option.some
        { latitude := parisMatch.latitude, longitude := parisMatch.longitude,
          address := pyReplaceCommaSpace parisMatch.address,
          match_level := "NOMINATIM_FULL", confidence := "Medium",
          original_address := "Paris" }) := by
  have h := resolve_no_credentials demoRegistry geoEmpty (geoAlways parisMatch)
    "Paris" (Option.some "GLOBAL") Option.none parisMatch rfl
  exact ⟨h.1, h.2 (Or.inl rfl) (fun q => rfl)⟩

/-! ## Claim C3: country-append asymmetry -/

/-- C3: for a known non-Global scope with country name `nm`: when
credentials are present, the Primary adapter is queried exactly once,
with `nm` appended (", "-joined) precisely when `nm` is not already a
case-insensitive substring of the normalized query; and every query
the Secondary adapter receives has `nm` appended, unconditionally. -/
theorem resolve_country_append_asymmetry
    (pyc : String → Option String) (google nominatim : String → GeoResponse)
    (loc : String) (key : Option String) (c nm : String)
    (hsc : isScoped (Option.some c) = true) (hnm : pyc c = Option.some nm) :
    (truthyStr key = true →
      (get_coordinates pyc google nominatim loc (Option.some c) key).2.googleCalls =
        [if pyIn (pyLower nm) (pyLower (clean_address loc)) = true then clean_address loc
         else clean_address loc ++ ", " ++ nm])
    ∧ (∀ q ∈ (get_coordinates pyc google nominatim loc (Option.some c) key).2.nominatimCalls,
        ∃ b, q = b ++ (", " ++ nm)) := by
  have hlog := get_coordinates_log pyc google nominatim loc (Option.some c) key
  have hbody : resolveBody pyc google nominatim loc (Option.some c) key =
      nominatimPhase pyc nominatim loc (Option.some c)
        (if truthyStr key then
          googleBranch pyc google (clean_address loc) (Option.some c) loc
         else (Option.none, clean_address loc, [], [])) := rfl
  by_cases hin : pyIn (pyLower nm) (pyLower (clean_address loc)) = true
  all_goals
    constructor
  · intro hkey
    rw [hlog.2.1, hbody, if_pos hkey]
    cases hg2 : google (clean_address loc) with
    | found r =>
      simp [googleBranch, nominatimPhase, hsc, hnm, hin, hg2]
    | noResult =>
      rw [show googleBranch pyc google (clean_address loc) (Option.some c) loc =
            (Option.none, clean_address loc, [], [clean_address loc]) from by
          simp [googleBranch, hsc, hnm, hin, hg2]]
      rw [(nominatimPhase_keeps pyc nominatim loc (Option.some c)
            (clean_address loc) [] [clean_address loc]).1]
      simp [hin]
    | raises e =>
      rw [show googleBranch pyc google (clean_address loc) (Option.some c) loc =
            (Option.none, clean_address loc, [googleWarn e], [clean_address loc]) from by
          simp [googleBranch, hsc, hnm, hin, hg2]]
      rw [(nominatimPhase_keeps pyc nominatim loc (Option.some c)
            (clean_address loc) [googleWarn e] [clean_address loc]).1]
      simp [hin]
  · intro q hq
    rw [hlog.2.2, hbody] at hq
    by_cases hkey : truthyStr key = true
    · rw [if_pos hkey] at hq
      cases hg2 : google (clean_address loc) with
      | found r =>
        rw [show googleBranch pyc google (clean_address loc) (Option.some c) loc =
              (Option.some { latitude := r.latitude, longitude := r.longitude,
                             address := r.address, match_level := "GOOGLE_MATCH",
                             confidence := "High", original_address := loc },
               clean_address loc, [], [clean_address loc]) from by
            simp [googleBranch, hsc, hnm, hin, hg2]] at hq
        simp [nominatimPhase] at hq
      | noResult =>
        rw [show googleBranch pyc google (clean_address loc) (Option.some c) loc =
              (Option.none, clean_address loc, [], [clean_address loc]) from by
            simp [googleBranch, hsc, hnm, hin, hg2]] at hq
        rw [nominatimPhase_appends pyc nominatim loc c nm (clean_address loc)
              [] [clean_address loc] hsc hnm] at hq
        simp only [List.mem_singleton] at hq
        exact ⟨clean_address loc, by rw [hq]; simp [String.append_assoc]⟩
      | raises e =>
        rw [show googleBranch pyc google (clean_address loc) (Option.some c) loc =
              (Option.none, clean_address loc, [googleWarn e], [clean_address loc]) from by
            simp [googleBranch, hsc, hnm, hin, hg2]] at hq
        rw [nominatimPhase_appends pyc nominatim loc c nm (clean_address loc)
              [googleWarn e] [clean_address loc] hsc hnm] at hq
        simp only [List.mem_singleton] at hq
        exact ⟨clean_address loc, by rw [hq]; simp [String.append_assoc]⟩
    · rw [if_neg hkey] at hq
      rw [nominatimPhase_appends pyc nominatim loc c nm (clean_address loc)
            [] [] hsc hnm] at hq
      simp only [List.mem_singleton] at hq
      exact ⟨clean_address loc, by rw [hq]; simp [String.append_assoc]⟩
  · intro hkey
    rw [hlog.2.1, hbody, if_pos hkey]
    cases hg2 : google (clean_address loc ++ ", " ++ nm) with
    | found r =>
      simp [googleBranch, nominatimPhase, hsc, hnm, hin, hg2]
    | noResult =>
      rw [show googleBranch pyc google (clean_address loc) (Option.some c) loc =
            (Option.none, clean_address loc ++ ", " ++ nm, [],
             [clean_address loc ++ ", " ++ nm]) from by
          simp [googleBranch, hsc, hnm, hin, hg2]]
      rw [(nominatimPhase_keeps pyc nominatim loc (Option.some c)
            (clean_address loc ++ ", " ++ nm) []
            [clean_address loc ++ ", " ++ nm]).1]
      simp [hin]
    | raises e =>
      rw [show googleBranch pyc google (clean_address loc) (Option.some c) loc =
            (Option.none, clean_address loc ++ ", " ++ nm, [googleWarn e],
             [clean_address loc ++ ", " ++ nm]) from by
          simp [googleBranch, hsc, hnm, hin, hg2]]
      rw [(nominatimPhase_keeps pyc nominatim loc (Option.some c)
            (clean_address loc ++ ", " ++ nm) [googleWarn e]
            [clean_address loc ++ ", " ++ nm]).1]
      simp [hin]
  · intro q hq
    rw [hlog.2.2, hbody] at hq
    by_cases hkey : truthyStr key = true
    · rw [if_pos hkey] at hq
      cases hg2 : google (clean_address loc ++ ", " ++ nm) with
      | found r =>
        rw [show googleBranch pyc google (clean_address loc) (Option.some c) loc =
              (Option.some { latitude := r.latitude, longitude := r.longitude,
                             address := r.address, match_level := "GOOGLE_MATCH",
                             confidence := "High", original_address := loc },
               clean_address loc ++ ", " ++ nm, [],
               [clean_address loc ++ ", " ++ nm]) from by
            simp [googleBranch, hsc, hnm, hin, hg2]] at hq
        simp [nominatimPhase] at hq
      | noResult =>
        rw [show googleBranch pyc google (clean_address loc) (Option.some c) loc =
              (Option.none, clean_address loc ++ ", " ++ nm, [],
               [clean_address loc ++ ", " ++ nm]) from by
            simp [googleBranch, hsc, hnm, hin, hg2]] at hq
        rw [nominatimPhase_appends pyc nominatim loc c nm
              (clean_address loc ++ ", " ++ nm) []
              [clean_address loc ++ ", " ++ nm] hsc hnm] at hq
        simp only [List.mem_singleton] at hq
        exact ⟨clean_address loc ++ ", " ++ nm, by rw [hq]; simp [String.append_assoc]⟩
      | raises e =>
        rw [show googleBranch pyc google (clean_address loc) (Option.some c) loc =
              (Option.none, clean_address loc ++ ", " ++ nm, [googleWarn e],
               [clean_address loc ++ ", " ++ nm]) from by
            simp [googleBranch, hsc, hnm, hin, hg2]] at hq
        rw [nominatimPhase_appends pyc nominatim loc c nm
              (clean_address loc ++ ", " ++ nm) [googleWarn e]
              [clean_address loc ++ ", " ++ nm] hsc hnm] at hq
        simp only [List.mem_singleton] at hq
        exact ⟨clean_address loc ++ ", " ++ nm, by rw [hq]; simp [String.append_assoc]⟩
    · rw [if_neg hkey] at hq
      rw [nominatimPhase_appends pyc nominatim loc c nm (clean_address loc)
            [] [] hsc hnm] at hq
      simp only [List.mem_singleton] at hq
      exact ⟨clean_address loc, by rw [hq]; simp [String.append_assoc]⟩

/-- C3 (witness): scope FR with query "Nice" (name not contained) and
query "paris france" (name contained, case-insensitively). -/
theorem resolve_country_append_asymmetry_witness :
    (get_coordinates demoRegistry geoEmpty geoEmpty "Nice" (Option.some "FR")
        (Option.some "k")).2.googleCalls = ["Nice, France"]
    ∧ (get_coordinates demoRegistry geoEmpty geoEmpty "paris france" (Option.some "FR")
        (Option.some "k")).2.googleCalls = ["paris france"]
    ∧ (get_coordinates demoRegistry geoEmpty geoEmpty "paris france" (Option.some "FR")
        (Option.some "k")).2.nominatimCalls = ["paris france, France"] := by
  have h1 := (resolve_country_append_asymmetry demoRegistry geoEmpty geoEmpty "Nice"
    (Option.some "k") "FR" "France" (by decide) rfl).1 (by decide)
  have h2 := (resolve_country_append_asymmetry demoRegistry geoEmpty geoEmpty "paris france"
    (Option.some "k") "FR" "France" (by decide) rfl).1 (by decide)
  refine ⟨?_, ?_, by decide⟩
  · rw [h1]; decide
  · rw [h2]; decide

/-! ## Claim C10: fall-through reuses the mutated query -/

/-- C10: with credentials, a known non-Global scope whose name is not a
substring of the normalized address, and a Primary adapter that raises,
the `location` variable mutated by the Primary branch is reused, so the
Secondary adapter is queried with the country name appended twice. -/
theorem resolve_fallthrough_doubles_country
    (pyc : String → Option String) (google nominatim : String → GeoResponse)
    (loc : String) (key : Option String) (c nm : String) (e : PyExc)
    (hkey : truthyStr key = true)
    (hsc : isScoped (Option.some c) = true) (hnm : pyc c = Option.some nm)
    (hin : pyIn (pyLower nm) (pyLower (clean_address loc)) = false)
    (hg : ∀ q, google q = GeoResponse.raises e) :
    (get_coordinates pyc google nominatim loc (Option.some c) key).2.googleCalls =
      [clean_address loc ++ ", " ++ nm]
    ∧ (get_coordinates pyc google nominatim loc (Option.some c) key).2.nominatimCalls =
      [clean_address loc ++ ", " ++ nm ++ ", " ++ nm] := by
  have hlog := get_coordinates_log pyc google nominatim loc (Option.some c) key
  constructor
  · rw [hlog.2.1]
    cases hn2 : nominatim (clean_address loc ++ ", " ++ nm ++ ", " ++ nm) <;>
      simp [resolveBody, googleBranch, nominatimPhase, hkey, hsc, hnm, hin, hg, hn2]
  · rw [hlog.2.2]
    cases hn2 : nominatim (clean_address loc ++ ", " ++ nm ++ ", " ++ nm) <;>
      simp [resolveBody, googleBranch, nominatimPhase, hkey, hsc, hnm, hin, hg, hn2]

/-- C10 (witness): "Berlin" with scope FR and a raising Primary: the
Secondary query is "Berlin, France, France". -/
theorem resolve_fallthrough_doubles_country_witness :
    (get_coordinates demoRegistry (geoRaise (PyExc.providerExc "quota")) geoEmpty "Berlin"
        (Option.some "FR") (Option.some "k")).2.googleCalls = ["Berlin, France"]
    ∧ (get_coordinates demoRegistry (geoRaise (PyExc.providerExc "quota")) geoEmpty "Berlin"
        (Option.some "FR") (Option.some "k")).2.nominatimCalls =
      ["Berlin, France, France"] := by
  have h := resolve_fallthrough_doubles_country demoRegistry
    (geoRaise (PyExc.providerExc "quota")) geoEmpty "Berlin" (Option.some "k")
    "FR" "France" (PyExc.providerExc "quota") (by decide) (by decide) rfl
    (by decide) (fun q => rfl)
  refine ⟨?_, ?_⟩
  · rw [h.1]; decide
  · rw [h.2]; decide

/-! ## Claim C9: adapters see the normalized query; raw input preserved -/

/-- C9: under a Global or registry-known scope, every query either
adapter receives is the normalized address, possibly with the scope's
country name appended once or (after a Primary fall-through) twice —
never the raw original as such — and any returned result carries the
raw input verbatim as `original_address`. -/
theorem resolve_queries_normalized
    (pyc : String → Option String) (google nominatim : String → GeoResponse)
    (loc : String) (cc key : Option String)
    (hscope : validScope pyc cc) :
    (∀ q ∈ (get_coordinates pyc google nominatim loc cc key).2.googleCalls ++
           (get_coordinates pyc google nominatim loc cc key).2.nominatimCalls,
      q = clean_address loc
      ∨ q = clean_address loc ++ ", " ++ (pyc (cc.getD "")).getD ""
      ∨ q = clean_address loc ++ ", " ++ (pyc (cc.getD "")).getD "" ++ ", " ++
            (pyc (cc.getD "")).getD "")
    ∧ (∀ r : GeocodeResult,
        (get_coordinates pyc google nominatim loc cc key).1 =
          PyOutcome.ok (Option.some r) → r.original_address = loc) := by
  have hlog := get_coordinates_log pyc google nominatim loc cc key
  rcases hscope with hG | ⟨hsc, hsome⟩
  · subst hG
    have hns : isScoped (Option.some "GLOBAL") = false := by decide
    by_cases hkey : truthyStr key = true
    · constructor
      · intro q hq
        rw [hlog.2.1, hlog.2.2] at hq
        cases hg2 : google (clean_address loc) <;>
          cases hn2 : nominatim (clean_address loc) <;>
          simp [resolveBody, googleBranch, nominatimPhase, hns, hkey, hg2, hn2] at hq <;>
          tauto
      · intro r hr
        have hr2 := resolveBody_ok_of_get pyc google nominatim loc
          (Option.some "GLOBAL") key r hr
        cases hg2 : google (clean_address loc) <;>
          cases hn2 : nominatim (clean_address loc) <;>
          simp [resolveBody, googleBranch, nominatimPhase, hns, hkey, hg2, hn2] at hr2 <;>
          simp [← hr2]
    · have hkey2 : truthyStr key = false := by simpa using hkey
      constructor
      · intro q hq
        rw [hlog.2.1, hlog.2.2] at hq
        cases hn2 : nominatim (clean_address loc) <;>
          simp [resolveBody, nominatimPhase, hns, hkey2, hn2] at hq <;>
          tauto
      · intro r hr
        have hr2 := resolveBody_ok_of_get pyc google nominatim loc
          (Option.some "GLOBAL") key r hr
        cases hn2 : nominatim (clean_address loc) <;>
          simp [resolveBody, nominatimPhase, hns, hkey2, hn2] at hr2 <;>
          simp [← hr2]
  · rcases cc with _ | c
    · simp [isScoped] at hsc
    · obtain ⟨nm, hnm⟩ := Option.isSome_iff_exists.mp hsome
      have hnm2 : pyc c = Option.some nm := hnm
      have hgoal : ((pyc ((Option.some c).getD "")).getD "") = nm := by
        simp [hnm2]
      rw [hgoal]
      by_cases hkey : truthyStr key = true
      · by_cases hin : pyIn (pyLower nm) (pyLower (clean_address loc)) = true
        · constructor
          · intro q hq
            rw [hlog.2.1, hlog.2.2] at hq
            cases hg2 : google (clean_address loc) <;>
              cases hn2 : nominatim (clean_address loc ++ ", " ++ nm) <;>
              simp [resolveBody, googleBranch, nominatimPhase,
                hsc, hnm2, hin, hkey, hg2, hn2] at hq <;>
              tauto
          · intro r hr
            have hr2 := resolveBody_ok_of_get pyc google nominatim loc
              (Option.some c) key r hr
            cases hg2 : google (clean_address loc) <;>
              cases hn2 : nominatim (clean_address loc ++ ", " ++ nm) <;>
              simp [resolveBody, googleBranch, nominatimPhase,
                hsc, hnm2, hin, hkey, hg2, hn2] at hr2 <;>
              simp [← hr2]
        · constructor
          · intro q hq
            rw [hlog.2.1, hlog.2.2] at hq
            cases hg2 : google (clean_address loc ++ ", " ++ nm) <;>
              cases hn2 : nominatim (clean_address loc ++ ", " ++ nm ++ ", " ++ nm) <;>
              simp [resolveBody, googleBranch, nominatimPhase,
                hsc, hnm2, hin, hkey, hg2, hn2] at hq <;>
              tauto
          · intro r hr
            have hr2 := resolveBody_ok_of_get pyc google nominatim loc
              (Option.some c) key r hr
            cases hg2 : google (clean_address loc ++ ", " ++ nm) <;>
              cases hn2 : nominatim (clean_address loc ++ ", " ++ nm ++ ", " ++ nm) <;>
              simp [resolveBody, googleBranch, nominatimPhase,
                hsc, hnm2, hin, hkey, hg2, hn2] at hr2 <;>
              simp [← hr2]
      · have hkey2 : truthyStr key = false := by simpa using hkey
        constructor
        · intro q hq
          rw [hlog.2.1, hlog.2.2] at hq
          cases hn2 : nominatim (clean_address loc ++ ", " ++ nm) <;>
            simp [resolveBody, nominatimPhase, hsc, hnm2, hkey2, hn2] at hq <;>
            tauto
        · intro r hr
          have hr2 := resolveBody_ok_of_get pyc google nominatim loc
            (Option.some c) key r hr
          cases hn2 : nominatim (clean_address loc ++ ", " ++ nm) <;>
            simp [resolveBody, nominatimPhase, hsc, hnm2, hkey2, hn2] at hr2 <;>
            simp [← hr2]

/-- C9 (witness): "  Nice  " is normalized to "Nice" before querying
(no credentials, scope FR), and the raw original is preserved in the
result. -/
theorem resolve_queries_normalized_witness :
    ((get_coordinates demoRegistry geoEmpty (geoAlways parisMatch) "  Nice  "
        (Option.some "FR") Option.none).2.nominatimCalls =
      ["Nice, France"])
    ∧ (∀ r : GeocodeResult,
        (get_coordinates demoRegistry geoEmpty (geoAlways parisMatch) "  Nice  "
          (Option.some "FR") Option.none).1 = PyOutcome.ok (Option.some r) →
        r.original_address = "  Nice  ") := by
  have h := resolve_queries_normalized demoRegistry geoEmpty (geoAlways parisMatch)
    "  Nice  " (Option.some "FR") Option.none (Or.inr ⟨by decide, rfl⟩)
  exact ⟨by decide, h.2⟩

/-! ## Claim C8: unknown country code -/

/-- C8 (counterexample): scope "ZZ" (absent from the registry) does NOT
propagate: `get_coordinates` catches the lookup failure, logs an error
and returns `None` like any other unexpected failure. -/
theorem resolve_unknown_code_not_raised :
    (get_coordinates demoRegistry geoEmpty geoEmpty "Paris" (Option.some "ZZ")
        Option.none).1.isOk = true
    ∧ (get_coordinates demoRegistry geoEmpty geoEmpty "Paris" (Option.some "ZZ")
        Option.none).1 = PyOutcome.ok Option.none
    ∧ (get_coordinates demoRegistry geoEmpty geoEmpty "Paris" (Option.some "ZZ")
        Option.none).2.errors ≠ [] := by
  refine ⟨rfl, rfl, ?_⟩
  decide

/-- C8 (amended): a non-Global scope code unknown to the registry is
absorbed at the pipeline boundary, not propagated: `resolve` returns
`None` with the `AttributeError` reported on the error channel (after
a Primary-branch warning when credentials are present), and neither
provider is ever queried. -/
theorem resolve_unknown_code_absorbed
    (pyc : String → Option String) (google nominatim : String → GeoResponse)
    (loc : String) (key : Option String) (c : String)
    (hsc : isScoped (Option.some c) = true) (hnone : pyc c = Option.none) :
    (get_coordinates pyc google nominatim loc (Option.some c) key).1 =
      PyOutcome.ok Option.none
    ∧ (get_coordinates pyc google nominatim loc (Option.some c) key).2.errors =
        [pipelineError PyExc.attributeNoneName]
    ∧ (get_coordinates pyc google nominatim loc (Option.some c) key).2.googleCalls = []
    ∧ (get_coordinates pyc google nominatim loc (Option.some c) key).2.nominatimCalls
        = [] := by
  by_cases hkey : truthyStr key = true
  · refine ⟨?_, ?_, ?_, ?_⟩ <;>
      simp [get_coordinates, resolveBody, googleBranch, nominatimPhase,
        hkey, hsc, hnone]
  · have hkey2 : truthyStr key = false := by simpa using hkey
    refine ⟨?_, ?_, ?_, ?_⟩ <;>
      simp [get_coordinates, resolveBody, nominatimPhase, hkey2, hsc, hnone]

/-- C8 (witness): the amended behaviour at scope "ZZ" with credentials
present. -/
theorem resolve_unknown_code_absorbed_witness :
    (get_coordinates demoRegistry geoEmpty geoEmpty "Berlin" (Option.some "ZZ")
        (Option.some "k")).1 = PyOutcome.ok Option.none
    ∧ (get_coordinates demoRegistry geoEmpty geoEmpty "Berlin" (Option.some "ZZ")
        (Option.some "k")).2.errors = [pipelineError PyExc.attributeNoneName] := by
  have h := resolve_unknown_code_absorbed demoRegistry geoEmpty geoEmpty "Berlin"
    (Option.some "k") "ZZ" (by decide) rfl
  exact ⟨h.1, h.2.1⟩

/-! ## Claim C7: exception absorption at the pipeline boundary -/

/-- C7 (counterexample): a Primary timeout is NOT silent and need not
yield null: it is caught by the Primary branch's generic handler, which
logs a warning and falls through, and a Secondary match then yields a
result. -/
theorem resolve_primary_timeout_not_silent :
    (get_coordinates demoRegistry (geoRaise PyExc.geocoderTimedOut)
        (geoAlways parisMatch) "Paris" (Option.some "GLOBAL")
        (Option.some "k")).2.warnings ≠ []
    ∧ (get_coordinates demoRegistry (geoRaise PyExc.geocoderTimedOut)
        (geoAlways parisMatch) "Paris" (Option.some "GLOBAL")
        (Option.some "k")).1 ≠ PyOutcome.ok Option.none := by
  constructor <;> decide

/-- C7 (amended): `resolve` never propagates any exception.  A timeout
reaching the pipeline boundary (i.e. from the Secondary branch) yields
null with nothing logged; any other Secondary-branch exception is
logged as an error and yields null; a Primary timeout instead behaves
like every Primary error — a warning, then fall-through to the
Secondary. -/
theorem resolve_absorbs_provider_failures
    (pyc : String → Option String) (google nominatim : String → GeoResponse)
    (loc : String) (cc key : Option String)
    (hscope : validScope pyc cc) (hkey : truthyStr key = false) :
    (∀ (pyc2 : String → Option String) (g2 n2 : String → GeoResponse)
        (l2 : String) (c2 k2 : Option String),
      (get_coordinates pyc2 g2 n2 l2 c2 k2).1.isOk = true)
    ∧ ((∀ q, nominatim q = GeoResponse.raises PyExc.geocoderTimedOut) →
        (get_coordinates pyc google nominatim loc cc key).1 = PyOutcome.ok Option.none
        ∧ (get_coordinates pyc google nominatim loc cc key).2.errors = []
        ∧ (get_coordinates pyc google nominatim loc cc key).2.warnings = [])
    ∧ (∀ msg, (∀ q, nominatim q = GeoResponse.raises (PyExc.providerExc msg)) →
        (get_coordinates pyc google nominatim loc cc key).1 = PyOutcome.ok Option.none
        ∧ (get_coordinates pyc google nominatim loc cc key).2.errors =
            [pipelineError (PyExc.providerExc msg)])
    ∧ (∀ k2, truthyStr k2 = true →
        (∀ q, google q = GeoResponse.raises PyExc.geocoderTimedOut) →
        (get_coordinates pyc google nominatim loc cc k2).2.warnings =
            [googleWarn PyExc.geocoderTimedOut]
        ∧ (get_coordinates pyc google nominatim loc cc k2).2.nominatimCalls ≠ []) := by
  refine ⟨fun pyc2 g2 n2 l2 c2 k2 => get_coordinates_isOk pyc2 g2 n2 l2 c2 k2, ?_, ?_, ?_⟩
  · intro hn
    rcases hscope with hG | ⟨hsc, hsome⟩
    · subst hG
      have hns : isScoped (Option.some "GLOBAL") = false := by decide
      refine ⟨?_, ?_, ?_⟩ <;>
        simp [get_coordinates, resolveBody, nominatimPhase, hkey, hns, hn]
    · rcases cc with _ | c
      · simp [isScoped] at hsc
      · obtain ⟨nm, hnm⟩ := Option.isSome_iff_exists.mp hsome
        have hnm2 : pyc c = Option.some nm := hnm
        refine ⟨?_, ?_, ?_⟩ <;>
          simp [get_coordinates, resolveBody, nominatimPhase, hkey, hsc, hnm2, hn]
  · intro msg hn
    rcases hscope with hG | ⟨hsc, hsome⟩
    · subst hG
      have hns : isScoped (Option.some "GLOBAL") = false := by decide
      refine ⟨?_, ?_⟩ <;>
        simp [get_coordinates, resolveBody, nominatimPhase, hkey, hns, hn]
    · rcases cc with _ | c
      · simp [isScoped] at hsc
      · obtain ⟨nm, hnm⟩ := Option.isSome_iff_exists.mp hsome
        have hnm2 : pyc c = Option.some nm := hnm
        refine ⟨?_, ?_⟩ <;>
          simp [get_coordinates, resolveBody, nominatimPhase, hkey, hsc, hnm2, hn]
  · intro k2 hk2 hg
    have hlog2 := get_coordinates_log pyc google nominatim loc cc k2
    rcases hscope with hG | ⟨hsc, hsome⟩
    · subst hG
      have hns : isScoped (Option.some "GLOBAL") = false := by decide
      constructor
      · rw [hlog2.1]
        cases hn2 : nominatim (clean_address loc) <;>
          simp [resolveBody, googleBranch, nominatimPhase, hk2, hns, hg, hn2]
      · rw [hlog2.2.2]
        cases hn2 : nominatim (clean_address loc) <;>
          simp [resolveBody, googleBranch, nominatimPhase, hk2, hns, hg, hn2]
    · rcases cc with _ | c
      · simp [isScoped] at hsc
      · obtain ⟨nm, hnm⟩ := Option.isSome_iff_exists.mp hsome
        have hnm2 : pyc c = Option.some nm := hnm
        by_cases hin : pyIn (pyLower nm) (pyLower (clean_address loc)) = true
        · constructor
          · rw [hlog2.1]
            cases hn2 : nominatim (clean_address loc ++ ", " ++ nm) <;>
              simp [resolveBody, googleBranch, nominatimPhase,
                hk2, hsc, hnm2, hin, hg, hn2]
          · rw [hlog2.2.2]
            cases hn2 : nominatim (clean_address loc ++ ", " ++ nm) <;>
              simp [resolveBody, googleBranch, nominatimPhase,
                hk2, hsc, hnm2, hin, hg, hn2]
        · constructor
          · rw [hlog2.1]
            cases hn2 : nominatim (clean_address loc ++ ", " ++ nm ++ ", " ++ nm) <;>
              simp [resolveBody, googleBranch, nominatimPhase,
                hk2, hsc, hnm2, hin, hg, hn2]
          · rw [hlog2.2.2]
            cases hn2 : nominatim (clean_address loc ++ ", " ++ nm ++ ", " ++ nm) <;>
              simp [resolveBody, googleBranch, nominatimPhase,
                hk2, hsc, hnm2, hin, hg, hn2]

/-- C7 (witness): the amended behaviour on concrete environments — a
Secondary timeout is silent null, a Secondary crash is a logged error
plus null, and a Primary timeout warns and still queries Nominatim. -/
theorem resolve_absorbs_provider_failures_witness :
    (get_coordinates demoRegistry geoEmpty (geoRaise PyExc.geocoderTimedOut) "Paris"
        (Option.some "GLOBAL") Option.none).1 = PyOutcome.ok Option.none
    ∧ (get_coordinates demoRegistry (geoRaise PyExc.geocoderTimedOut)
        (geoRaise (PyExc.providerExc "boom")) "Paris" (Option.some "GLOBAL")
        Option.none).2.errors = [pipelineError (PyExc.providerExc "boom")]
    ∧ (get_coordinates demoRegistry (geoRaise PyExc.geocoderTimedOut)
        (geoRaise (PyExc.providerExc "boom")) "Paris" (Option.some "GLOBAL")
        (Option.some "k")).2.warnings = [googleWarn PyExc.geocoderTimedOut] := by
  have h1 := resolve_absorbs_provider_failures demoRegistry geoEmpty
    (geoRaise PyExc.geocoderTimedOut) "Paris" (Option.some "GLOBAL") Option.none
    (Or.inl rfl) rfl
  have h2 := resolve_absorbs_provider_failures demoRegistry
    (geoRaise PyExc.geocoderTimedOut) (geoRaise (PyExc.providerExc "boom")) "Paris"
    (Option.some "GLOBAL") Option.none (Or.inl rfl) rfl
  exact ⟨(h1.2.1 (fun q => rfl)).1, (h2.2.2.1 "boom" (fun q => rfl)).2,
    (h2.2.2.2 (Option.some "k") (by decide) (fun q => rfl)).1⟩

/-! ## Claim C6: blank rows in the batch runner -/

/-- The loop invariant of `process_csv_aux`: row count preserved; rows
with a blank cell keep all five result fields unset; resolve is called
exactly on the non-blank cells (with the raw cell text); the sleep and
the progress-bar update happen once per NON-blank row only; the status
text is written for every row. -/
theorem process_csv_aux_spec (pyc : String → Option String)
    (g n : String → GeoResponse) (cc key : Option String) (total : Nat) :
    ∀ (cells : List (Option String)) (i : Nat),
      ((process_csv_aux pyc g n cc key total i cells).1.length = cells.length)
      ∧ (∀ r ∈ (process_csv_aux pyc g n cc key total i cells).1,
          isBlankCell r.cell = true →
            r.latitude = Option.none ∧ r.longitude = Option.none
            ∧ r.full_address = Option.none ∧ r.match_level = Option.none
            ∧ r.confidence = Option.none)
      ∧ ((process_csv_aux pyc g n cc key total i cells).2.resolveCalls =
          (cells.filter (fun x => !isBlankCell x)).map (fun x => x.getD ""))
      ∧ ((process_csv_aux pyc g n cc key total i cells).2.sleepCount =
          (cells.filter (fun x => !isBlankCell x)).length)
      ∧ ((process_csv_aux pyc g n cc key total i cells).2.progressUpdates.length =
          (cells.filter (fun x => !isBlankCell x)).length)
      ∧ ((process_csv_aux pyc g n cc key total i cells).2.statusTexts.length =
          cells.length) := by
  intro cells
  induction cells with
  | nil =>
    intro i
    exact ⟨rfl, by intro r hr; simp [process_csv_aux] at hr, rfl, rfl, rfl, rfl⟩
  | cons cell rest ih =>
    intro i
    have ihi := ih (i + 1)
    by_cases hb : isBlankCell cell = true
    · have hfb : (!isBlankCell cell) = false := by simp [hb]
      refine ⟨?_, ?_, ?_, ?_, ?_, ?_⟩
      · simp [process_csv_aux, hb, ihi.1]
      · intro r hr hblank
        simp only [process_csv_aux, hb, if_true, List.mem_cons] at hr
        rcases hr with rfl | hr
        · exact ⟨rfl, rfl, rfl, rfl, rfl⟩
        · exact ihi.2.1 r hr hblank
      · simp [process_csv_aux, hb, ihi.2.2.1, List.filter_cons, hfb]
      · simp [process_csv_aux, hb, ihi.2.2.2.1, List.filter_cons, hfb]
      · simp [process_csv_aux, hb, ihi.2.2.2.2.1, List.filter_cons, hfb]
      · simp [process_csv_aux, hb, ihi.2.2.2.2.2]
    · have hb2 : isBlankCell cell = false := by simpa using hb
      have hfb : (!isBlankCell cell) = true := by simp [hb2]
      refine ⟨?_, ?_, ?_, ?_, ?_, ?_⟩
      · simp [process_csv_aux, hb2, ihi.1]
      · intro r hr hblank
        simp only [process_csv_aux, hb2, Bool.false_eq_true, if_false,
          List.mem_cons] at hr
        rcases hr with rfl | hr
        · cases hres : (get_coordinates pyc g n (cell.getD "") cc key).1 with
          | ok a =>
            cases a with
            | none => simp [hres, blankRow]
            | some v =>
              rw [hres] at hblank
              simp at hblank
              rw [hblank] at hb2
              simp at hb2
          | raised e => simp [hres, blankRow]
        · exact ihi.2.1 r hr hblank
      · simp [process_csv_aux, hb2, ihi.2.2.1, List.filter_cons, hfb]
      · simp [process_csv_aux, hb2, ihi.2.2.2.1, List.filter_cons, hfb]
      · simp [process_csv_aux, hb2, ihi.2.2.2.2.1, List.filter_cons, hfb]
      · simp [process_csv_aux, hb2, ihi.2.2.2.2.2]

/-- C6 (counterexample): on the batch `[" ", "x"]` the blank first row
hits `continue` BEFORE the progress-bar update and the 1-second sleep:
only one sleep happens (an unconditional per-row delay would give two)
and only one progress fraction (2/2) is emitted (none after the blank
row). -/
theorem process_csv_blank_skips_delay :
    (process_csv demoRegistry geoEmpty geoEmpty [Option.some " ", Option.some "x"]
        (Option.some "GLOBAL") Option.none).2.sleepCount = 1
    ∧ (process_csv demoRegistry geoEmpty geoEmpty [Option.some " ", Option.some "x"]
        (Option.some "GLOBAL") Option.none).2.sleepCount ≠ 2
    ∧ (process_csv demoRegistry geoEmpty geoEmpty [Option.some " ", Option.some "x"]
        (Option.some "GLOBAL") Option.none).2.progressUpdates = [(2, 2)]
    ∧ (process_csv demoRegistry geoEmpty geoEmpty [Option.some " ", Option.some "x"]
        (Option.some "GLOBAL") Option.none).2.progressUpdates ≠ [(1, 2), (2, 2)] := by
  refine ⟨by decide, by decide, by decide, by decide⟩

/-- C6 (amended): blank rows make no resolve call and keep their five
result fields unset, and the loop proceeds to the next row (one status
text per row, row count preserved) — but the progress-bar update and
the fixed 1-second delay are SKIPPED for blank rows: both happen
exactly once per non-blank row. -/
theorem process_csv_blank_rows (pyc : String → Option String)
    (g n : String → GeoResponse) (rows : List (Option String))
    (cc key : Option String) :
    ((process_csv pyc g n rows cc key).1.length = rows.length)
    ∧ (∀ r ∈ (process_csv pyc g n rows cc key).1,
        isBlankCell r.cell = true →
          r.latitude = Option.none ∧ r.longitude = Option.none
          ∧ r.full_address = Option.none ∧ r.match_level = Option.none
          ∧ r.confidence = Option.none)
    ∧ ((process_csv pyc g n rows cc key).2.resolveCalls =
        (rows.filter (fun x => !isBlankCell x)).map (fun x => x.getD ""))
    ∧ ((process_csv pyc g n rows cc key).2.sleepCount =
        (rows.filter (fun x => !isBlankCell x)).length)
    ∧ ((process_csv pyc g n rows cc key).2.progressUpdates.length =
        (rows.filter (fun x => !isBlankCell x)).length)
    ∧ ((process_csv pyc g n rows cc key).2.statusTexts.length = rows.length) :=
  process_csv_aux_spec pyc g n cc key rows.length rows 0

/-- C6 (witness): the amended claim evaluated on a concrete batch with
a whitespace-only row, a real row and a missing cell. -/
theorem process_csv_blank_rows_witness :
    ((process_csv demoRegistry geoEmpty geoEmpty
        [Option.some " ", Option.some "x", Option.none]
        (Option.some "GLOBAL") Option.none).1.length = 3)
    ∧ (blankRow (Option.some " ") ∈ (process_csv demoRegistry geoEmpty geoEmpty
        [Option.some " ", Option.some "x", Option.none]
        (Option.some "GLOBAL") Option.none).1)
    ∧ ((blankRow (Option.some " ")).latitude = Option.none)
    ∧ ((process_csv demoRegistry geoEmpty geoEmpty
        [Option.some " ", Option.some "x", Option.none]
        (Option.some "GLOBAL") Option.none).2.resolveCalls = ["x"])
    ∧ ((process_csv demoRegistry geoEmpty geoEmpty
        [Option.some " ", Option.some "x", Option.none]
        (Option.some "GLOBAL") Option.none).2.sleepCount = 1) := by
  have h := process_csv_blank_rows demoRegistry geoEmpty geoEmpty
    [Option.some " ", Option.some "x", Option.none] (Option.some "GLOBAL") Option.none
  have hm : blankRow (Option.some " ") ∈ (process_csv demoRegistry geoEmpty geoEmpty
      [Option.some " ", Option.some "x", Option.none]
      (Option.some "GLOBAL") Option.none).1 := by decide
  refine ⟨h.1.trans (by decide), hm, (h.2.1 _ hm (by decide)).1, ?_, ?_⟩
  · rw [h.2.2.1]; decide
  · rw [h.2.2.2.1]; decide

end Geo
